import Mathlib

/-!
Verification of the meal_max catalog ("kitchen") and battle engine.

The repository ships only the test suite for these modules
(`tests/test_battle_model.py`, `tests/test_kitchen_model.py`,
`tests/test_random_utils.py`); the implementation modules
`meal_max/models/battle_model.py`, `meal_max/models/kitchen_model.py` and
`meal_max/utils/random_utils.py` are not present.  Every operation below is
therefore modelled from the specification, except where the test suite pins
the behaviour, in which case the tests are authoritative (they assert exact
SQL strings, exact scores, and exact winners).  Prices and scores are
modelled as rationals; python floats behave exactly on the small decimal
values involved.
-/

/-- Modelled from the spec: the `Meal` dataclass of
`meal_max/models/kitchen_model.py` (absent from the sources), as constructed
throughout the tests: `Meal(id, meal, cuisine, price, difficulty)`. -/
structure Meal where
  id : Nat
  meal : String
  cuisine : String
  price : ℚ
  difficulty : String
deriving DecidableEq

/-- Modelled from the spec: the tier penalty used by `get_battle_score` in
`meal_max/models/battle_model.py` (absent from the sources).  The LOW entry
is pinned by `test_get_battle_score`, which scores the LOW-tier `meal_1` as
`price * len(cuisine) - 3`; the MED and HIGH entries follow the spec's map
(MED→3, HIGH→1), which the tests leave unconstrained. -/
def tierPenalty (difficulty : String) : ℚ :=
  if difficulty = "LOW" then 3
  else if difficulty = "MED" then 3
  else 1

/-- Modelled from the spec: `BattleModel.get_battle_score`, the deterministic
pure score `price * length(cuisine) - tierPenalty(difficulty)`; the concrete
arithmetic is pinned by `test_get_battle_score`. -/
def get_battle_score (m : Meal) : ℚ :=
  m.price * (m.cuisine.length : ℚ) - tierPenalty m.difficulty

/-- Error kinds of the battle engine (spec §7). -/
inductive BattleError where
  | rosterFull
  | insufficientCombatants
deriving DecidableEq

/-- Modelled from the spec: `BattleModel.prep_combatant`; fails with
RosterFull ("Combatant list is full, cannot add more combatants.") when the
roster already holds two combatants, otherwise appends, preserving insertion
order (pinned by `test_prep_two_combatants` / `test_prep_three_combatants`). -/
def prep_combatant (combatants : List Meal) (m : Meal) :
    Except BattleError (List Meal) :=
  if combatants.length = 2 then .error .rosterFull
  else .ok (combatants ++ [m])

/-- Modelled from the spec: `BattleModel.clear_combatants`; empties the
roster unconditionally. -/
def clear_combatants (_combatants : List Meal) : List Meal := []

/-- Modelled from the spec: `BattleModel.get_combatants`; returns the
current roster without mutation. -/
def get_combatants (combatants : List Meal) : List Meal := combatants

/-- Modelled from the spec: `BattleModel.battle`, resolving a battle given
the random draw `r` obtained from `get_random`.  It computes both scores,
`normalizedDelta = min (|scoreA - scoreB| / 100) 1`, and picks the winner
positionally: `combatants[0]` exactly when `r < normalizedDelta`, otherwise
`combatants[1]` — this selection rule is pinned by `test_battle_meal1_wins`
(scores 90/85, r = 0.02, combatants[0] wins) and `test_battle_meal2_wins`
(scores 85/90, r = 0.05, combatants[1] wins).  The result carries the
winner's display name, the roster after evicting the loser, and the
`update_meal_stats` calls made, in order.  With fewer than two prepped
combatants it fails ("Two combatants must be prepped for a battle."). -/
def battle (combatants : List Meal) (r : ℚ) :
    Except BattleError (String × List Meal × List (Nat × String)) :=
  match combatants with
  | [c1, c2] =>
    let score_1 := get_battle_score c1
    let score_2 := get_battle_score c2
    let normalizedDelta := min (|score_1 - score_2| / 100) 1
    if r < normalizedDelta then
      .ok (c1.meal, [c1], [(c1.id, "win"), (c2.id, "loss")])
    else
      .ok (c2.meal, [c2], [(c2.id, "win"), (c1.id, "loss")])
  | _ => .error .insufficientCombatants

/-- The sample meal of the `meal_1` test fixture. -/
def meal_1 : Meal := ⟨1, "Meal 1", "Cuisine 1", 20, "LOW"⟩

/-- The sample meal of the `meal_2` test fixture. -/
def meal_2 : Meal := ⟨2, "Meal 2", "Cuisine 2", 25, "MED"⟩

/-- The third meal prepped in `test_prep_three_combatants`. -/
def meal_3 : Meal := ⟨3, "Meal 3", "Cuisine 3", 15, "HIGH"⟩

/-- A LOW-tier meal whose battle score is exactly 90. -/
def mealScore90 : Meal := ⟨1, "Meal A", "C", 93, "LOW"⟩

/-- A LOW-tier meal whose battle score is exactly 85. -/
def mealScore85 : Meal := ⟨2, "Meal B", "D", 88, "LOW"⟩

/-- A second LOW-tier meal whose battle score is exactly 90, distinct from
`mealScore90`. -/
def mealScore90' : Meal := ⟨3, "Meal C", "E", 93, "LOW"⟩

/-- Error kinds of the catalog store (spec §7); `alreadyDeleted` is the
shared "Meal with ID {id} has been deleted" failure of `delete_meal` and
`update_meal_stats`. -/
inductive KitchenError where
  | notFound (id : Nat)
  | alreadyDeleted (id : Nat)
  | invalidResult (result : String)
deriving DecidableEq

/-- Modelled from the spec: a persisted row of the `meals` table, as laid
out in `meal_max/models/kitchen_model.py` (absent from the sources): columns
id, meal (name), cuisine, price, difficulty, deleted flag, battles count,
wins count; counters start at 0 and `deleted` starts false. -/
structure MealRow where
  id : Nat
  meal : String
  cuisine : String
  price : ℚ
  difficulty : String
  deleted : Bool
  battles : Nat
  wins : Nat
deriving DecidableEq

/-- The catalog store's table of rows, in insertion order. -/
abbrev Db := List MealRow

/-- Point lookup by id, mirroring `SELECT ... FROM meals WHERE id = ?`
(asserted verbatim by the kitchen tests). -/
def findRow (db : Db) (id : Nat) : Option MealRow :=
  db.find? (fun r => r.id == id)

/-- Modelled from the spec: `delete_meal` of
`meal_max/models/kitchen_model.py` (absent from the sources).  The tests pin
the shape: it first runs `SELECT deleted FROM meals WHERE id = ?`; no row
raises "Meal with ID {id} not found", a true flag raises "Meal with ID {id}
has been deleted", and otherwise it runs
`UPDATE meals SET deleted = TRUE WHERE id = ?` — a flag flip, never a
physical removal. -/
def delete_meal (db : Db) (id : Nat) : Except KitchenError Db :=
  match findRow db id with
  | none => .error (.notFound id)
  | some row =>
    if row.deleted then .error (.alreadyDeleted id)
    else .ok (db.map (fun r => if r.id == id then { r with deleted := true } else r))

/-- Modelled from the spec: `update_meal_stats` of
`meal_max/models/kitchen_model.py` (absent from the sources).  It checks
existence and the deleted flag first (same rules and messages as
`delete_meal`); then a 'win' runs
`UPDATE meals SET battles = battles + 1, wins = wins + 1 WHERE id = ?`,
a 'loss' runs `UPDATE meals SET battles = battles + 1 WHERE id = ?`
(both asserted verbatim by the tests), and any other result raises
"Invalid result: {result}. Expected 'win' or 'loss'.". -/
def update_meal_stats (db : Db) (id : Nat) (result : String) :
    Except KitchenError Db :=
  match findRow db id with
  | none => .error (.notFound id)
  | some row =>
    if row.deleted then .error (.alreadyDeleted id)
    else if result = "win" then
      .ok (db.map (fun r =>
        if r.id == id then { r with battles := r.battles + 1, wins := r.wins + 1 } else r))
    else if result = "loss" then
      .ok (db.map (fun r =>
        if r.id == id then { r with battles := r.battles + 1 } else r))
    else .error (.invalidResult result)

/-- A record of the leaderboard projection: the row's columns plus the
derived `win_pct`. -/
structure LeaderboardEntry where
  id : Nat
  meal : String
  cuisine : String
  price : ℚ
  difficulty : String
  battles : Nat
  wins : Nat
  win_pct : ℚ
deriving DecidableEq

/-- Modelled from the spec: the raw win fraction `wins / battles` computed
by the leaderboard query, defined as 0 when `battles = 0`. -/
def win_pct_raw (battles wins : Nat) : ℚ :=
  if battles = 0 then 0 else (wins : ℚ) / (battles : ℚ)

/-- Rounding to one decimal place, used for the projected `win_pct`
(the test pins `0.6 ↦ 60.0`). -/
def roundTenth (q : ℚ) : ℚ := ((round (10 * q) : ℤ) : ℚ) / 10

/-- Modelled from the spec: the leaderboard projection of one row, carrying
`win_pct = round(wins / battles * 100, 1)` (pinned by
`test_get_leaderboard`: battles=5, wins=3 projects to 60.0). -/
def toEntry (r : MealRow) : LeaderboardEntry :=
  { id := r.id, meal := r.meal, cuisine := r.cuisine, price := r.price,
    difficulty := r.difficulty, battles := r.battles, wins := r.wins,
    win_pct := roundTenth (100 * win_pct_raw r.battles r.wins) }

/-- Modelled from the spec: `get_leaderboard` of
`meal_max/models/kitchen_model.py` (absent from the sources): the
non-deleted rows, each projected through `toEntry`, ordered descending by
the requested sort key (`wins` by default, `win_pct` when requested). -/
def get_leaderboard (db : Db) (sortBy : String) : List LeaderboardEntry :=
  let entries := (db.filter (fun r => !r.deleted)).map toEntry
  if sortBy = "win_pct" then
    entries.insertionSort (fun a b => b.win_pct ≤ a.win_pct)
  else
    entries.insertionSort (fun a b => b.wins ≤ a.wins)

/-- The outcome of the single outbound HTTP call made by `get_random`:
either a response body, a timeout, or another transport failure carrying its
cause. -/
inductive HttpResult where
  | success (body : String)
  | timedOut
  | requestFailed (cause : String)
deriving DecidableEq

/-- The failure kinds of `get_random` (spec §6): BadResponse
("Invalid response from random.org: {body}"), Timeout ("Request to
random.org timed out."), NetworkError ("Request to random.org failed:
{cause}"). -/
inductive RandomError where
  | badResponse (body : String)
  | timedOut
  | networkError (cause : String)
deriving DecidableEq

/-- Splits a character list on the '.' separator. -/
def splitOnDot : List Char → List (List Char)
  | [] => [[]]
  | c :: rest =>
    let r := splitOnDot rest
    if c = '.' then [] :: r
    else
      match r with
      | g :: gs => (c :: g) :: gs
      | [] => [[c]]

/-- Reads a non-empty run of decimal digits as a natural number. -/
def parseDigits (cs : List Char) : Option Nat :=
  if cs.isEmpty then none
  else
    cs.foldl (fun acc c =>
      match acc with
      | none => none
      | some n => if c.isDigit then some (n * 10 + (c.toNat - 48)) else none)
      (some 0)

/-- Modelled from the spec: parsing the response body as a floating-point
number (python `float(...)`), restricted to the plain decimal notation
`digits` or `digits.digits` that random.org returns; the exact value is kept
as a rational. -/
def parseDecimal (s : String) : Option ℚ :=
  match splitOnDot s.data with
  | [intPart] => (parseDigits intPart).map (fun n => (n : ℚ))
  | [intPart, fracPart] =>
    match parseDigits intPart, parseDigits fracPart with
    | some i, some f => some ((i : ℚ) + (f : ℚ) / (10 : ℚ) ^ fracPart.length)
    | _, _ => none
  | _ => none

/-- Modelled from the spec: `get_random` of `meal_max/utils/random_utils.py`
(absent from the sources), as a function of the HTTP call's outcome.  The
tests pin: a parsable body returns its value; an unparsable body raises
ValueError "Invalid response from random.org: {body}"; a timeout raises
RuntimeError "Request to random.org timed out."; any other request failure
raises RuntimeError "Request to random.org failed: {cause}". -/
def get_random (resp : HttpResult) : Except RandomError ℚ :=
  match resp with
  | .success body =>
    match parseDecimal body with
    | some q => .ok q
    | none => .error (.badResponse body)
  | .timedOut => .error .timedOut
  | .requestFailed cause => .error (.networkError cause)

/-- An operation against one `BattleModel` instance, with the random draw a
battle would consume attached. -/
inductive Op where
  | prep (m : Meal)
  | clear
  | readRoster
  | fight (r : ℚ)

/-- One operation applied to the engine's roster; a failed call leaves the
roster unchanged (the python methods raise before mutating). -/
def step (s : List Meal) (op : Op) : List Meal :=
  match op with
  | .prep m =>
    match prep_combatant s m with
    | .ok s' => s'
    | .error _ => s
  | .clear => clear_combatants s
  | .readRoster => get_combatants s
  | .fight r =>
    match battle s r with
    | .ok (_, s', _) => s'
    | .error _ => s

/-- The roster after running a sequence of operations on a fresh engine. -/
def run (ops : List Op) : List Meal := ops.foldl step []

/-- A stored, non-deleted row for `meal_1` with fresh counters. -/
def sampleRow : MealRow := ⟨1, "Meal 1", "Cuisine 1", 20, "LOW", false, 0, 0⟩

/-- The soft-deleted variant of `sampleRow`. -/
def sampleRowDeleted : MealRow := { sampleRow with deleted := true }

/-- The leaderboard test row: battles = 5, wins = 3, not deleted. -/
def lbRow : MealRow := ⟨1, "Meal 1", "Cuisine 1", 10, "MED", false, 5, 3⟩

theorem findRow_some_id {db : Db} {id : Nat} {row : MealRow}
    (h : findRow db id = some row) : row.id = id := by
  have := List.find?_some h
  simpa using this

theorem findRow_map (f : MealRow → MealRow) (hf : ∀ r, (f r).id = r.id)
    (db : Db) (id : Nat) :
    findRow (db.map f) id = (findRow db id).map f := by
  induction db with
  | nil => rfl
  | cons r rest ih =>
    by_cases h : r.id = id
    · simp [findRow, List.find?, hf, h]
    · simp only [findRow, List.map_cons, List.find?] at *
      rw [show (((f r).id == id) = false) by simp [hf, h],
        show ((r.id == id) = false) by simp [h]]
      exact ih

theorem step_length_le {s : List Meal} (op : Op) (h : s.length ≤ 2) :
    (step s op).length ≤ 2 := by
  match op with
  | .prep m =>
    unfold step prep_combatant
    by_cases h2 : s.length = 2
    · simp [h2]
    · simp only [h2, if_false]
      have : s.length ≤ 1 := by omega
      simp only [List.length_append, List.length_singleton]
      omega
  | .clear => simp [step, clear_combatants]
  | .readRoster => simpa [step, get_combatants] using h
  | .fight r =>
    unfold step battle
    match s with
    | [] => simp
    | [c] => simp
    | [c1, c2] =>
      dsimp only
      by_cases hr :
          r < min (|get_battle_score c1 - get_battle_score c2| / 100) 1 <;>
        simp [hr]
    | c1 :: c2 :: c3 :: rest => simp at h

theorem run_length_le (ops : List Op) : (run ops).length ≤ 2 := by
  suffices h : ∀ s : List Meal, s.length ≤ 2 → (List.foldl step s ops).length ≤ 2 by
    exact h [] (by simp)
  induction ops with
  | nil => intro s hs; simpa using hs
  | cons op rest ih =>
    intro s hs
    exact ih (step s op) (step_length_le op hs)

theorem score_samples :
    get_battle_score mealScore90 = 90 ∧ get_battle_score mealScore85 = 85 ∧
      get_battle_score mealScore90' = 90 := by
  refine ⟨?_, ?_, ?_⟩ <;>
    · simp only [get_battle_score, mealScore90, mealScore85, mealScore90',
        tierPenalty, reduceIte, show "C".length = 1 from rfl,
        show "D".length = 1 from rfl, show "E".length = 1 from rfl]
      norm_num

/-- C8: `prep_combatant` fails with RosterFull exactly when the roster
already has length 2, otherwise appends the meal preserving insertion
order; consequently the roster length never exceeds 2 across every sequence
of prep, clear, list and battle operations on a fresh engine. -/
theorem prep_roster_invariant :
    (∀ (s : List Meal) (m : Meal),
      (prep_combatant s m = .error .rosterFull ↔ s.length = 2) ∧
      (s.length ≠ 2 → prep_combatant s m = .ok (s ++ [m]))) ∧
    (∀ ops : List Op, (run ops).length ≤ 2) := by
  refine ⟨fun s m => ⟨⟨fun h => ?_, fun h2 => by simp [prep_combatant, h2]⟩,
    fun h2 => by simp [prep_combatant, h2]⟩, run_length_le⟩
  by_contra h2
  simp [prep_combatant, h2] at h

theorem prep_roster_invariant_witness :
    prep_combatant [meal_1] meal_2 = .ok [meal_1, meal_2] ∧
    prep_combatant [meal_1, meal_2] meal_3 = .error .rosterFull ∧
    (run [.prep meal_1, .prep meal_2, .prep meal_3]).length ≤ 2 :=
  ⟨(prep_roster_invariant.1 [meal_1] meal_2).2 (by simp),
    (prep_roster_invariant.1 [meal_1, meal_2] meal_3).1.mpr (by simp),
    prep_roster_invariant.2 _⟩

/-- C9: `prep_combatant` performs no catalog-store lookup: for every meal —
in particular one whose id is absent from every store state or refers to a
soft-deleted row — prep succeeds and appends whenever the roster holds
fewer than two combatants. -/
theorem prep_no_store_lookup :
    ∀ (db : Db) (m : Meal) (s : List Meal),
      (findRow db m.id = none ∨
        ∃ row, findRow db m.id = some row ∧ row.deleted = true) →
      s.length < 2 →
      prep_combatant s m = .ok (s ++ [m]) := by
  intro db m s _ hlen
  have h2 : s.length ≠ 2 := by omega
  simp [prep_combatant, h2]

theorem prep_no_store_lookup_witness :
    prep_combatant [meal_1, meal_2].tail meal_3 = .ok ([meal_2] ++ [meal_3]) :=
  prep_no_store_lookup [] meal_3 [meal_2] (Or.inl rfl) (by simp)

/-- C1 counterexample: with combatant scores 90 and 85 (so normalizedDelta
= 5/100 = 0.05) and random draw r = 1/50 = 0.02 < 0.05, the battle is won
by "Meal A" — the higher-scoring combatants[0] — whereas the claim says the
lower-scoring combatant ("Meal B") wins when r < normalizedDelta. -/
theorem battle_upset_rule_counterexample :
    get_battle_score mealScore90 = 90 ∧ get_battle_score mealScore85 = 85 ∧
    min (|(90 : ℚ) - 85| / 100) 1 = 1 / 20 ∧ ((1 : ℚ) / 50) < 1 / 20 ∧
    battle [mealScore90, mealScore85] (1 / 50) =
      .ok ("Meal A", [mealScore90], [(1, "win"), (2, "loss")]) ∧
    mealScore85.meal ≠ "Meal A" := by
  have h90 := score_samples.1
  have h85 := score_samples.2.1
  have hmin : min (|(90 : ℚ) - 85| / 100) 1 = 1 / 20 := by norm_num [min_def]
  refine ⟨h90, h85, hmin, by norm_num, ?_, by decide⟩
  have h : ((1 : ℚ) / 50) <
      min (|get_battle_score mealScore90 - get_battle_score mealScore85| / 100) 1 := by
    rw [h90, h85, hmin]; norm_num
  simp only [battle, if_pos h]
  rfl

/-- C1 (amended): `battle` computes `scoreA`, `scoreB`,
`delta = |scoreA - scoreB|` and `normalizedDelta = min (delta / 100) 1`,
draws one random value `r`, and selects the winner positionally:
combatants[0] wins exactly when `r < normalizedDelta`, combatants[1]
otherwise — regardless of which of the two scores is higher; in particular
with scores 90 vs 85 (normalizedDelta = 0.05) and r = 0.02, combatants[0]
(here the higher-scoring combatant) wins. -/
theorem battle_resolution_rule :
    (∀ (a b : Meal) (r : ℚ),
      battle [a, b] r =
        if r < min (|get_battle_score a - get_battle_score b| / 100) 1 then
          Except.ok (a.meal, [a], [(a.id, "win"), (b.id, "loss")])
        else
          Except.ok (b.meal, [b], [(b.id, "win"), (a.id, "loss")])) ∧
    battle [mealScore90, mealScore85] (1 / 50) =
      .ok ("Meal A", [mealScore90], [(1, "win"), (2, "loss")]) := by
  refine ⟨fun a b r => rfl, ?_⟩
  have h : ((1 : ℚ) / 50) <
      min (|get_battle_score mealScore90 - get_battle_score mealScore85| / 100) 1 := by
    rw [score_samples.1, score_samples.2.1]; norm_num [min_def]
  simp only [battle, if_pos h]
  rfl

/-- C2 counterexample: the `meal_1` fixture (price 20.00, 9-character
cuisine "Cuisine 1", tier LOW) scores 177 = 20 * 9 - 3, as asserted by
`test_get_battle_score`, not 178 = 20 * 9 - 2 as the claim's LOW→2 penalty
would give. -/
theorem get_battle_score_penalty_counterexample :
    get_battle_score meal_1 = 177 ∧
    (20 : ℚ) * 9 - 2 = 178 ∧ (177 : ℚ) ≠ 178 := by
  refine ⟨?_, by norm_num, by norm_num⟩
  simp only [get_battle_score, meal_1, tierPenalty, reduceIte,
    show "Cuisine 1".length = 9 from rfl]
  norm_num

/-- C2 (amended): `get_battle_score` is the deterministic pure value
`price * length(cuisine) - tierPenalty(difficulty)`, where the penalty for
LOW is 3 (as the test pins: a LOW item with price 20.00 and a 9-character
cuisine scores 20 * 9 - 3 = 177), with MED→3 and HIGH→1 as in the spec. -/
theorem get_battle_score_formula :
    (∀ m : Meal,
      get_battle_score m =
        m.price * (m.cuisine.length : ℚ) - tierPenalty m.difficulty) ∧
    tierPenalty "LOW" = 3 ∧ tierPenalty "MED" = 3 ∧ tierPenalty "HIGH" = 1 ∧
    get_battle_score meal_1 = (20 : ℚ) * 9 - 3 := by
  refine ⟨fun m => rfl, by simp [tierPenalty], by simp [tierPenalty],
    by simp [tierPenalty], ?_⟩
  simp only [get_battle_score, meal_1, tierPenalty, reduceIte,
    show "Cuisine 1".length = 9 from rfl]
  norm_num

/-- C3 counterexample: `mealScore90` and `mealScore90'` have exactly equal
scores, yet with random draw 0 the battle selects combatants[1]
("Meal C"), not combatants[0], contradicting the claim that combatants[0]
always wins ties. -/
theorem battle_tie_counterexample :
    get_battle_score mealScore90 = get_battle_score mealScore90' ∧
    battle [mealScore90, mealScore90'] 0 =
      .ok ("Meal C", [mealScore90'], [(3, "win"), (1, "loss")]) ∧
    mealScore90.meal ≠ "Meal C" := by
  have heq : get_battle_score mealScore90 = get_battle_score mealScore90' := by
    rw [score_samples.1, score_samples.2.2]
  refine ⟨heq, ?_, by decide⟩
  have h : ¬ ((0 : ℚ) <
      min (|get_battle_score mealScore90 - get_battle_score mealScore90'| / 100) 1) := by
    rw [heq, sub_self, abs_zero]
    norm_num
  simp only [battle, if_neg h]
  rfl

/-- C3 (amended): for every pair of prepped combatants whose scores are
exactly equal, `delta = 0`, so for every nonnegative random draw `r` the
test `r < normalizedDelta` fails and combatants[1] — not combatants[0] —
is selected as the winner, regardless of the draw. -/
theorem battle_tie_second_wins :
    ∀ (a b : Meal) (r : ℚ), 0 ≤ r →
      get_battle_score a = get_battle_score b →
      battle [a, b] r = .ok (b.meal, [b], [(b.id, "win"), (a.id, "loss")]) := by
  intro a b r hr heq
  have h : ¬ (r < min (|get_battle_score a - get_battle_score b| / 100) 1) := by
    rw [heq, sub_self, abs_zero]
    norm_num
    exact hr
  simp only [battle, if_neg h]

theorem battle_tie_second_wins_witness :
    battle [mealScore90, mealScore90'] 0 =
      .ok (mealScore90'.meal, [mealScore90'],
        [(mealScore90'.id, "win"), (mealScore90.id, "loss")]) :=
  battle_tie_second_wins mealScore90 mealScore90' 0 le_rfl
    (by rw [score_samples.1, score_samples.2.2])

/-- C4: for every existing non-deleted row, `update_meal_stats` with 'loss'
increments `battles` and leaves `wins` unchanged, while 'win' increments
both `battles` and `wins`; in both cases the table keeps the same rows
(same length), only the counters of the targeted row change. -/
theorem update_meal_stats_win_loss :
    ∀ (db : Db) (id : Nat) (row : MealRow),
      findRow db id = some row → row.deleted = false →
      (∃ dbL, update_meal_stats db id "loss" = .ok dbL ∧
        findRow dbL id = some { row with battles := row.battles + 1 } ∧
        ({ row with battles := row.battles + 1 } : MealRow).wins = row.wins ∧
        dbL.length = db.length) ∧
      (∃ dbW, update_meal_stats db id "win" = .ok dbW ∧
        findRow dbW id =
          some { row with battles := row.battles + 1, wins := row.wins + 1 } ∧
        dbW.length = db.length) := by
  intro db id row hfind hdel
  have hid : row.id = id := findRow_some_id hfind
  constructor
  · have heq : update_meal_stats db id "loss" =
        .ok (db.map (fun r =>
          if r.id == id then { r with battles := r.battles + 1 } else r)) := by
      unfold update_meal_stats
      rw [hfind]
      simp [hdel]
    refine ⟨_, heq, ?_, rfl, List.length_map _ _⟩
    rw [findRow_map _ (fun r => by by_cases h : r.id == id <;> simp [h]) db id,
      hfind]
    simp [hid]
  · have heq : update_meal_stats db id "win" =
        .ok (db.map (fun r =>
          if r.id == id then
            { r with battles := r.battles + 1, wins := r.wins + 1 }
          else r)) := by
      unfold update_meal_stats
      rw [hfind]
      simp [hdel]
    refine ⟨_, heq, ?_, List.length_map _ _⟩
    rw [findRow_map _ (fun r => by by_cases h : r.id == id <;> simp [h]) db id,
      hfind]
    simp [hid]

theorem update_meal_stats_win_loss_witness :
    (∃ dbL, update_meal_stats [sampleRow] 1 "loss" = .ok dbL ∧
      findRow dbL 1 = some { sampleRow with battles := sampleRow.battles + 1 } ∧
      ({ sampleRow with battles := sampleRow.battles + 1 } : MealRow).wins =
        sampleRow.wins ∧
      dbL.length = ([sampleRow] : Db).length) ∧
    (∃ dbW, update_meal_stats [sampleRow] 1 "win" = .ok dbW ∧
      findRow dbW 1 =
        some { sampleRow with battles := sampleRow.battles + 1, wins := sampleRow.wins + 1 } ∧
      dbW.length = ([sampleRow] : Db).length) :=
  update_meal_stats_win_loss [sampleRow] 1 sampleRow rfl rfl

/-- C6: `delete_meal` fails with NotFound when no row with the id exists,
fails with AlreadyDeleted when the row's deleted flag is already true, and
otherwise flips `deleted` to true without removing any row (the table keeps
its length); hence deleting the same id twice succeeds the first time and
fails the second time with AlreadyDeleted. -/
theorem delete_meal_spec :
    ∀ (db : Db) (id : Nat),
      (findRow db id = none → delete_meal db id = .error (.notFound id)) ∧
      (∀ row, findRow db id = some row → row.deleted = true →
        delete_meal db id = .error (.alreadyDeleted id)) ∧
      (∀ row, findRow db id = some row → row.deleted = false →
        ∃ db', delete_meal db id = .ok db' ∧
          findRow db' id = some { row with deleted := true } ∧
          db'.length = db.length ∧
          delete_meal db' id = .error (.alreadyDeleted id)) := by
  intro db id
  refine ⟨fun h => by unfold delete_meal; rw [h],
    fun row hfind hdel => by unfold delete_meal; rw [hfind]; simp [hdel],
    fun row hfind hdel => ?_⟩
  have hid : row.id = id := findRow_some_id hfind
  have heq : delete_meal db id =
      .ok (db.map (fun r => if r.id == id then { r with deleted := true } else r)) := by
    unfold delete_meal
    rw [hfind]
    simp [hdel]
  have hfind' :
      findRow (db.map (fun r => if r.id == id then { r with deleted := true } else r)) id =
        some { row with deleted := true } := by
    rw [findRow_map _ (fun r => by by_cases h : r.id == id <;> simp [h]) db id,
      hfind]
    simp [hid]
  refine ⟨_, heq, hfind', List.length_map _ _, ?_⟩
  unfold delete_meal
  rw [hfind']
  simp

theorem delete_meal_spec_witness :
    delete_meal ([] : Db) 999 = .error (.notFound 999) ∧
    delete_meal [sampleRowDeleted] 1 = .error (.alreadyDeleted 1) ∧
    (∃ db', delete_meal [sampleRow] 1 = .ok db' ∧
      findRow db' 1 = some { sampleRow with deleted := true } ∧
      db'.length = ([sampleRow] : Db).length ∧
      delete_meal db' 1 = .error (.alreadyDeleted 1)) :=
  ⟨(delete_meal_spec [] 999).1 rfl,
    (delete_meal_spec [sampleRowDeleted] 1).2.1 sampleRowDeleted rfl rfl,
    (delete_meal_spec [sampleRow] 1).2.2 sampleRow rfl rfl⟩

/-- C10: `update_meal_stats` checks existence and the deleted flag before
validating the outcome: for every id and every result string — valid or not
— a missing row yields NotFound and a deleted row yields the Deleted
failure, and the InvalidOutcome failure occurs only when the id refers to
an existing, non-deleted row and the result is neither 'win' nor 'loss'. -/
theorem update_meal_stats_error_precedence :
    ∀ (db : Db) (id : Nat) (result : String),
      (findRow db id = none →
        update_meal_stats db id result = .error (.notFound id)) ∧
      (∀ row, findRow db id = some row → row.deleted = true →
        update_meal_stats db id result = .error (.alreadyDeleted id)) ∧
      (update_meal_stats db id result = .error (.invalidResult result) →
        ∃ row, findRow db id = some row ∧ row.deleted = false ∧
          result ≠ "win" ∧ result ≠ "loss") := by
  intro db id result
  refine ⟨fun h => by unfold update_meal_stats; rw [h],
    fun row hfind hdel => by unfold update_meal_stats; rw [hfind]; simp [hdel],
    fun h => ?_⟩
  unfold update_meal_stats at h
  cases hfind : findRow db id with
  | none => rw [hfind] at h; simp at h
  | some row =>
    rw [hfind] at h
    by_cases hdel : row.deleted
    · simp [hdel] at h
    · by_cases hw : result = "win"
      · simp [hdel, hw] at h
      · by_cases hl : result = "loss"
        · simp [hdel, hw, hl] at h
        · exact ⟨row, rfl, by simpa using hdel, hw, hl⟩

theorem update_meal_stats_error_precedence_witness :
    update_meal_stats ([] : Db) 999 "banana" = .error (.notFound 999) ∧
    update_meal_stats [sampleRowDeleted] 1 "banana" = .error (.alreadyDeleted 1) ∧
    (∃ row, findRow [sampleRow] 1 = some row ∧ row.deleted = false ∧
      "banana" ≠ "win" ∧ "banana" ≠ "loss") :=
  ⟨(update_meal_stats_error_precedence [] 999 "banana").1 rfl,
    (update_meal_stats_error_precedence [sampleRowDeleted] 1 "banana").2.1
      sampleRowDeleted rfl rfl,
    (update_meal_stats_error_precedence [sampleRow] 1 "banana").2.2 rfl⟩

theorem roundTenth_bounds {q : ℚ} (h0 : 0 ≤ q) (h1 : q ≤ 100) :
    0 ≤ roundTenth q ∧ roundTenth q ≤ 100 := by
  have hr := round_eq (10 * q)
  constructor
  · have hge : (0 : ℤ) ≤ round (10 * q) := by
      rw [hr]
      exact Int.le_floor.mpr (by push_cast; linarith)
    unfold roundTenth
    positivity
  · have hup : round (10 * q) ≤ 1000 := by
      rw [hr]
      exact Int.le_of_lt_add_one (Int.floor_lt.mpr (by push_cast; linarith))
    unfold roundTenth
    rw [div_le_iff₀ (by norm_num)]
    calc ((round (10 * q) : ℤ) : ℚ) ≤ ((1000 : ℤ) : ℚ) := by exact_mod_cast hup
      _ = 100 * 10 := by norm_num

theorem win_pct_raw_bounds {battles wins : Nat} (h : wins ≤ battles) :
    0 ≤ 100 * win_pct_raw battles wins ∧
      100 * win_pct_raw battles wins ≤ 100 := by
  unfold win_pct_raw
  by_cases hb : battles = 0
  · simp [hb]
  · have hbp : (0 : ℚ) < (battles : ℚ) := by
      exact_mod_cast Nat.pos_of_ne_zero hb
    have hwb : (wins : ℚ) ≤ (battles : ℚ) := by exact_mod_cast h
    simp only [hb, if_false]
    constructor
    · have : (0 : ℚ) ≤ (wins : ℚ) / (battles : ℚ) :=
        div_nonneg (by positivity) hbp.le
      linarith
    · have : (wins : ℚ) / (battles : ℚ) ≤ 1 := (div_le_one hbp).mpr hwb
      linarith

/-- C5: every record of the leaderboard projection comes from a non-deleted
stored row and carries the derived `win_pct = wins / battles * 100` (0 when
`battles = 0`), rounded to one decimal place and lying in the 0–100
percentage range whenever the row satisfies `wins ≤ battles`; in particular
battles = 5, wins = 3 yields `win_pct = 60.0`. -/
theorem leaderboard_win_pct :
    (∀ (db : Db) (sortBy : String) (e : LeaderboardEntry),
      e ∈ get_leaderboard db sortBy →
      ∃ r, r ∈ db ∧ r.deleted = false ∧ e = toEntry r ∧
        e.win_pct = roundTenth (100 * win_pct_raw r.battles r.wins) ∧
        (r.wins ≤ r.battles → 0 ≤ e.win_pct ∧ e.win_pct ≤ 100)) ∧
    roundTenth (100 * win_pct_raw 5 3) = 60 := by
  constructor
  · intro db sortBy e hmem
    have hmem' : e ∈ (db.filter (fun r => !r.deleted)).map toEntry := by
      simp only [get_leaderboard] at hmem
      split at hmem <;> simpa [List.mem_insertionSort] using hmem
    obtain ⟨r, hrf, hre⟩ := List.mem_map.mp hmem'
    obtain ⟨hrdb, hrd⟩ := List.mem_filter.mp hrf
    refine ⟨r, hrdb, by simpa using hrd, hre.symm, by rw [← hre]; rfl, ?_⟩
    intro hwb
    obtain ⟨hq0, hq1⟩ := win_pct_raw_bounds hwb
    rw [← hre]
    exact roundTenth_bounds hq0 hq1
  · norm_num [roundTenth, win_pct_raw]

theorem leaderboard_win_pct_witness :
    toEntry lbRow ∈ get_leaderboard [lbRow] "wins" ∧
    (∃ r, r ∈ ([lbRow] : Db) ∧ r.deleted = false ∧
      toEntry lbRow = toEntry r ∧
      (toEntry lbRow).win_pct = roundTenth (100 * win_pct_raw r.battles r.wins) ∧
      (r.wins ≤ r.battles →
        0 ≤ (toEntry lbRow).win_pct ∧ (toEntry lbRow).win_pct ≤ 100)) :=
  have hmem : toEntry lbRow ∈ get_leaderboard [lbRow] "wins" := by
    simp [get_leaderboard, lbRow, List.insertionSort, List.orderedInsert]
  ⟨hmem, leaderboard_win_pct.1 [lbRow] "wins" (toEntry lbRow) hmem⟩

/-- C7: `get_random` fails with BadResponse when the response body cannot
be parsed as a number, with Timeout when the call timed out, and with
NetworkError carrying the underlying cause for any other transport
failure; a parsable body succeeds with its value, and the three failure
kinds are distinct values, so the caller can tell them apart. -/
theorem get_random_error_kinds :
    (∀ body : String, parseDecimal body = none →
      get_random (.success body) = .error (.badResponse body)) ∧
    (∀ (body : String) (q : ℚ), parseDecimal body = some q →
      get_random (.success body) = .ok q) ∧
    get_random .timedOut = .error .timedOut ∧
    (∀ cause : String,
      get_random (.requestFailed cause) = .error (.networkError cause)) ∧
    (∀ (body cause : String),
      RandomError.badResponse body ≠ .timedOut ∧
      RandomError.badResponse body ≠ .networkError cause ∧
      RandomError.timedOut ≠ .networkError cause) := by
  refine ⟨fun body h => ?_, fun body q h => ?_, rfl, fun cause => rfl,
    fun body cause => ⟨by simp, by simp, by simp⟩⟩ <;>
    simp only [get_random, h]

theorem get_random_error_kinds_witness :
    get_random (.success "invalid_number") =
      .error (.badResponse "invalid_number") ∧
    get_random (.success "0.77") = .ok ((0 : ℚ) + (77 : ℚ) / (10 : ℚ) ^ 2) ∧
    get_random .timedOut = .error .timedOut ∧
    get_random (.requestFailed "Network error") =
      .error (.networkError "Network error") ∧
    (RandomError.badResponse "invalid_number" ≠ .timedOut ∧
      RandomError.badResponse "invalid_number" ≠ .networkError "Network error" ∧
      RandomError.timedOut ≠ .networkError "Network error") :=
  ⟨get_random_error_kinds.1 "invalid_number" rfl,
    get_random_error_kinds.2.1 "0.77" ((0 : ℚ) + (77 : ℚ) / (10 : ℚ) ^ 2) rfl,
    get_random_error_kinds.2.2.1,
    get_random_error_kinds.2.2.2.1 "Network error",
    get_random_error_kinds.2.2.2.2 "invalid_number" "Network error"⟩
